import Mathlib

/-!  Shallow embedding of the OPC-N3 USB-SPI driver
(`src/peripherals/OPCN3.py`).

The serial channel is modelled as an oracle mapping the index of each
`read` call to the bytes the device makes available for it; `read(n)`
takes at most `n` of them.  Writes, reads and sleeps are logged as
events, most recent first.  The `while True` loops of the source are
given explicit fuel: a call returns the final driver state together
with `true` when the loop exited by `break`/success and `false` when
the fuel ran out (the source loop is still running at that point).
Python `float` arithmetic is idealised as exact rational arithmetic.
-/

namespace OPCN3

/-- SPIBytes: address for the USB adapter (`adUSBAdapter = 0x5A`). -/
def adUSBAdapter : Nat := 0x5A

/-- SPIBytes: address for the OPC (`adOPC = 0x61`). -/
def adOPC : Nat := 0x61

/-- SPIBytes: command byte for peripherals (`pCommand = 0x03`). -/
def pCommand : Nat := 0x03

/-- SPIBytes: byte turning the fan off (`fanOff = 0x02`). -/
def fanOff : Nat := 0x02

/-- SPIBytes: byte turning the fan on (`fanOn = 0x03`). -/
def fanOn : Nat := 0x03

/-- SPIBytes: byte turning the laser off (`laserOff = 0x06`). -/
def laserOff : Nat := 0x06

/-- SPIBytes: byte turning the laser on (`laserOn = 0x07`). -/
def laserOn : Nat := 0x07

/-- SPIBytes: histogram request byte (`reqHist = 0x30`). -/
def reqHist : Nat := 0x30

/-- Sleep durations appearing in the source: `self.wait` (1e-06 s),
`self.wait * 10`, and the literal 1, 2 and 3 second sleeps. -/
inductive Dur where
  | wait : Dur
  | wait10 : Dur
  | one : Dur
  | two : Dur
  | three : Dur
  deriving DecidableEq

/-- Observable channel events: a write of a byte sequence, a read of up
to `n` bytes yielding `res`, or a sleep of a given duration. -/
inductive Event where
  | write : List Nat → Event
  | readEv : Nat → List Nat → Event
  | sleep : Dur → Event
  deriving DecidableEq

/-- The decoded histogram measurement: the `opcHistData` dict built in
`OPCN3.getData`, with insertion-ordered keys MToF, Period, Flowrate,
Temp, RH, PM1, PM2.5, PM10 and the optional "Bin Data" sub-dict (bins
1..24 in order) present exactly when the config enables bin data. -/
structure Measurement where
  mtof : ℚ
  period : ℚ
  flowrate : ℚ
  temp : ℚ
  rh : ℚ
  pm1 : ℚ
  pm25 : ℚ
  pm10 : ℚ
  binData : Option (List Nat)
  deriving DecidableEq

/-- The environment of a driver run: the channel oracle (bytes the
device has available for the `k`-th read call) and the config flag
`config["Use Bin Data"]`. -/
structure Env where
  reads : Nat → List Nat
  useBinData : Bool

/-- Mutable driver state: how many reads have happened, the event log
(most recent event first), and the instance attributes `isFanOn`,
`isLaserOn` and `latestData` of class `OPCN3`. -/
structure St where
  readIdx : Nat
  events : List Event
  isFanOn : Bool
  isLaserOn : Bool
  latestData : Option Measurement
  deriving DecidableEq

/-- `self.opc.write(bytearray(bs))`. -/
def doWrite (bs : List Nat) (st : St) : St :=
  { st with events := Event.write bs :: st.events }

/-- `self.opc.read(n)`: returns up to `n` of the bytes the oracle has
available for this read call. -/
def doRead (env : Env) (n : Nat) (st : St) : List Nat × St :=
  let r := (env.reads st.readIdx).take n
  (r, { st with readIdx := st.readIdx + 1
                events := Event.readEv n r :: st.events })

/-- `time.sleep(d)`. -/
def doSleep (d : Dur) (st : St) : St :=
  { st with events := Event.sleep d :: st.events }

/-- The state after `OPCN3.__init__`: `isFanOn = True`,
`isLaserOn = True`, `latestData = None`, and no channel traffic has
happened yet. -/
def initSt : St :=
  { readIdx := 0
    events := []
    isFanOn := true
    isLaserOn := true
    latestData := none }

/-- `OPCN3.initConnection`: sleep 1 s, write `[0x5A, 0x01]`, read 3,
sleep wait, write `[0x5A, 0x03]`, read 9, sleep wait, write
`[0x5A, 0x02, 0x92, 0x07]`, read 2, sleep wait. -/
def initConnection (env : Env) (st : St) : St :=
  let st := doSleep Dur.one st
  let st := doWrite [adUSBAdapter, 0x01] st
  let st := (doRead env 3 st).2
  let st := doSleep Dur.wait st
  let st := doWrite [adUSBAdapter, 0x03] st
  let st := (doRead env 9 st).2
  let st := doSleep Dur.wait st
  let st := doWrite [adUSBAdapter, 0x02, 0x92, 0x07] st
  let st := (doRead env 2 st).2
  doSleep Dur.wait st

/-- The two bytes the source's ready comparison tests against.  The
source writes `opcReturn == (b"\xff\xf3" or b"\xf3\xff")`; the Python
`or` of two non-empty byte strings evaluates to its first operand, so
the comparison is against `b"\xff\xf3"` alone. -/
def readyBytes : List Nat := [0xFF, 0xF3]

/-- The ready check of `fanPower` (line 217), `laserPower` (line 269)
and `getData` (line 327): equality with `readyBytes` (see there for why
the reversed byte order is not accepted). -/
def readyCheck (r : List Nat) : Bool := r == readyBytes

/-- The ready check as the specification describes it: acceptance of
the documented pattern in either byte order. -/
def readyCheckSpec (r : List Nat) : Bool :=
  r == [0xFF, 0xF3] || r == [0xF3, 0xFF]

/-- The `while True` loop of `OPCN3.fanPower`, fuel-indexed.  Each
iteration increments `loopCount`, writes the peripheral-command probe,
reads 2 bytes and, when they pass the ready check, writes the on/off
byte, reads the (unchecked) acknowledgement, sleeps 2 s, sets
`isFanOn` and breaks; otherwise when `loopCount > 20` it sleeps 3 s
and resets `loopCount` to 0, else it sleeps `wait * 10` and retries. -/
def fanPowerLoop (env : Env) (status : Bool) (fanStatus : Nat) :
    Nat → Nat → St → St × Bool
  | 0, _, st => (st, false)
  | fuel + 1, loopCount, st =>
    let lc := loopCount + 1
    let rd := doRead env 2 (doWrite [adOPC, pCommand] st)
    if readyCheck rd.1 then
      let st := doSleep Dur.wait rd.2
      let st := (doRead env 2 (doWrite [adOPC, fanStatus] st)).2
      let st := doSleep Dur.two st
      ({ st with isFanOn := status }, true)
    else if lc > 20 then
      fanPowerLoop env status fanStatus fuel 0 (doSleep Dur.three rd.2)
    else
      fanPowerLoop env status fanStatus fuel lc (doSleep Dur.wait10 rd.2)

/-- `OPCN3.fanPower(status)`: selects `fanOn`/`fanOff` and runs the
polling loop with `loopCount = 0`. -/
def fanPower (env : Env) (status : Bool) (fuel : Nat) (st : St) :
    St × Bool :=
  fanPowerLoop env status (if status then fanOn else fanOff) fuel 0 st

/-- The `while True` loop of `OPCN3.laserPower`, identical to the fan
loop but for the command byte and the `isLaserOn` flag. -/
def laserPowerLoop (env : Env) (status : Bool) (laserStatus : Nat) :
    Nat → Nat → St → St × Bool
  | 0, _, st => (st, false)
  | fuel + 1, loopCount, st =>
    let lc := loopCount + 1
    let rd := doRead env 2 (doWrite [adOPC, pCommand] st)
    if readyCheck rd.1 then
      let st := doSleep Dur.wait rd.2
      let st := (doRead env 2 (doWrite [adOPC, laserStatus] st)).2
      let st := doSleep Dur.two st
      ({ st with isLaserOn := status }, true)
    else if lc > 20 then
      laserPowerLoop env status laserStatus fuel 0 (doSleep Dur.three rd.2)
    else
      laserPowerLoop env status laserStatus fuel lc (doSleep Dur.wait10 rd.2)

/-- `OPCN3.laserPower(status)`. -/
def laserPower (env : Env) (status : Bool) (fuel : Nat) (st : St) :
    St × Bool :=
  laserPowerLoop env status (if status then laserOn else laserOff) fuel 0 st

/-- `convert_RH`: `100 * (rawRH / ((2 ** 16) - 1))`. -/
def convert_RH (rawRH : Nat) : ℚ :=
  100 * ((rawRH : ℚ) / ((2 ^ 16) - 1))

/-- `convert_T`: `-45 + (175 * (rawT / ((2 ** 16) - 1)))`. -/
def convert_T (rawT : Nat) : ℚ :=
  -45 + (175 * ((rawT : ℚ) / ((2 ^ 16) - 1)))

/-- `combine_bytes(LSB, MSB) = (MSB << 8) | LSB`. -/
def combine_bytes (LSB MSB : Nat) : Nat :=
  (MSB <<< 8) ||| LSB

/-- Python's `round` to an integer: round half to even. -/
def roundHalfEven (q : ℚ) : ℤ :=
  if q - Int.floor q < 1 / 2 then Int.floor q
  else if q - Int.floor q > 1 / 2 then Int.floor q + 1
  else if Int.floor q % 2 = 0 then Int.floor q else Int.floor q + 1

/-- Python's `round(q, 3)` on the idealised rational value. -/
def round3 (q : ℚ) : ℚ :=
  (roundHalfEven (q * 1000) : ℚ) / 1000

/-- Little-endian IEEE-754 binary32 decoding of four bytes to the exact
rational value it denotes (`unpack("f", bytes(...))[0]` in the source).
Non-finite encodings (exponent field 255) do not occur in the claims'
inputs and are mapped to 0. -/
def unpackF32le (bs : List Nat) : ℚ :=
  match bs with
  | [b0, b1, b2, b3] =>
    let bits : Nat := b0 + 256 * b1 + 65536 * b2 + 16777216 * b3
    let sgn : ℚ := if bits / 2 ^ 31 % 2 = 1 then -1 else 1
    let ex : Nat := bits / 2 ^ 23 % 256
    let mant : Nat := bits % 2 ^ 23
    if ex = 0 then sgn * (mant : ℚ) / 2 ^ 149
    else if ex = 255 then 0
    else sgn * ((2 ^ 23 + mant : Nat) : ℚ) * (2 : ℚ) ^ ((ex : ℤ) - 150)
  | _ => 0

/-- The filler strip of `getData` (lines 339-343): keep exactly the
entries of `opcHistBytesRaw` whose 0-indexed position `index` satisfies
`(index + 1) % 2 == 0`. -/
def stripFillers (raw : List Nat) : List Nat :=
  ((raw.enum.filter (fun p => (p.1 + 1) % 2 == 0)).map Prod.snd)

/-- The bytes at even 0-indexed positions of a raw frame, in order
(the payload the specification claims is retained). -/
def evenPositions (raw : List Nat) : List Nat :=
  ((raw.enum.filter (fun p => p.1 % 2 == 0)).map Prod.snd)

/-- The bytes at odd 0-indexed positions of a raw frame, in order. -/
def oddPositions (raw : List Nat) : List Nat :=
  ((raw.enum.filter (fun p => p.1 % 2 == 1)).map Prod.snd)

/-- Every second element of a list, starting with the element at index
1: the bytes at odd 0-indexed positions, by direct recursion. -/
def deinterleave : List Nat → List Nat
  | _ :: b :: rest => b :: deinterleave rest
  | _ => []

/-- The `opcHistData` dict built from an 86-byte stripped payload
(lines 345-391).  List slices `h[a:b]` become `(h.drop a).take (b-a)`;
single indexing `h[i]` (always in range at the call site, where the
payload has length 86) becomes `h.getD i 0`. -/
def decodeHist (useBinData : Bool) (h : List Nat) : Measurement :=
  { mtof := round3 (unpackF32le ((h.drop 48).take 4) / 3)
    period := (combine_bytes (h.getD 52 0) (h.getD 53 0) : ℚ) / 100
    flowrate := (combine_bytes (h.getD 54 0) (h.getD 55 0) : ℚ) / 100
    temp := round3 (convert_T (combine_bytes (h.getD 56 0) (h.getD 57 0)))
    rh := round3 (convert_RH (combine_bytes (h.getD 58 0) (h.getD 59 0)))
    pm1 := round3 (unpackF32le ((h.drop 60).take 4))
    pm25 := round3 (unpackF32le ((h.drop 64).take 4))
    pm10 := round3 (unpackF32le ((h.drop 68).take 4))
    binData :=
      if useBinData then
        some ((List.range 24).map (fun b =>
          combine_bytes (h.getD (b * 2) 0) (h.getD (b * 2 + 1) 0)))
      else none }

/-- The 86 repetitions of `write([adOPC, 0x45]); sleep(wait)` that
clock the payload out of the device (lines 332-334). -/
def writeAnyBytes : Nat → St → St
  | 0, st => st
  | n + 1, st => writeAnyBytes n (doSleep Dur.wait (doWrite [adOPC, 0x45] st))

/-- The `while True` loop of `OPCN3.getData`, fuel-indexed, with the
branch nesting exactly as in the source: the `elif loopCount > 20` and
final `else` are alternatives of `if len(opcHistBytes) == 86`, inside
the ready branch; a not-ready probe falls straight through to the next
iteration with no sleep and no counter check. -/
def getDataLoop (env : Env) : Nat → Nat → St → St × Bool
  | 0, _, st => (st, false)
  | fuel + 1, loopCount, st =>
    let lc := loopCount + 1
    let rd := doRead env 2 (doWrite [adOPC, reqHist] st)
    if readyCheck rd.1 then
      let hr := doRead env 172 (writeAnyBytes 86 rd.2)
      let opcHistBytes := stripFillers hr.1
      if opcHistBytes.length = 86 then
        ({ hr.2 with latestData := some (decodeHist env.useBinData opcHistBytes) },
         true)
      else if lc > 20 then
        let st := initConnection env (doSleep Dur.three hr.2)
        ({ st with latestData := none }, true)
      else
        getDataLoop env fuel lc (doSleep Dur.wait10 hr.2)
    else
      getDataLoop env fuel lc rd.2

/-- `OPCN3.getData()`: the polling loop started with `loopCount = 0`. -/
def getData (env : Env) (fuel : Nat) (st : St) : St × Bool :=
  getDataLoop env fuel 0 st

/-- Output of `formatData`, with each comma-joined CSV string
represented as the ordered list of its components (keys as the literal
dict keys, values as the idealised rational measurement values). -/
structure FormatOut where
  headers : Option (List String)
  dataVals : Option (List ℚ)
  binHeaders : Option (List String)
  binVals : Option (List Nat)
  deriving DecidableEq

/-- The non-bin dict keys of `latestData`, in insertion order. -/
def measKeys : List String :=
  ["MToF (us)", "Period (s)", "Flowrate (ml/s)", "Temp (C)", "RH (%)",
   "PM1 (ug/m-3)", "PM2.5 (ug/m-3)", "PM10 (ug/m-3)"]

/-- The non-bin dict values of `latestData`, in insertion order. -/
def measVals (m : Measurement) : List ℚ :=
  [m.mtof, m.period, m.flowrate, m.temp, m.rh, m.pm1, m.pm25, m.pm10]

/-- `OPCN3.formatData`: returns the formatted output together with the
value of `latestData` after the call.  When `useBinData` is set the
source reads `self.latestData["Bin Data"]` (a `KeyError`, modelled as
`none`, if that key is absent) and then executes
`self.latestData.pop("Bin Data", None)`, which removes the bin mapping
from the stored measurement. -/
def formatData (useBinData : Bool) :
    Option Measurement → Option (FormatOut × Option Measurement)
  | none =>
    some ({ headers := none, dataVals := none
            binHeaders := none, binVals := none }, none)
  | some m =>
    if useBinData then
      match m.binData with
      | none => none
      | some bd =>
        some ({ headers := some measKeys
                dataVals := some (measVals m)
                binHeaders := some ((List.range bd.length).map
                  (fun i => "Bin " ++ toString (i + 1)))
                binVals := some bd },
              some { m with binData := none })
    else
      some ({ headers := some measKeys
              dataVals := some (measVals m)
              binHeaders := none, binVals := none }, some m)

/-- Number of 3-second cooldown sleeps in an event log. -/
def countThreeSleeps (evs : List Event) : Nat :=
  evs.countP (fun e => e == Event.sleep Dur.three)

/-- Number of `initConnection` invocations visible in an event log:
only `initConnection` ever writes the adapter-address command
`[0x5A, 0x01]`. -/
def countInitWrites (evs : List Event) : Nat :=
  evs.countP (fun e => e == Event.write [adUSBAdapter, 0x01])

/-- A sample decoded measurement with a one-entry bin mapping, used to
exhibit the effect of `formatData` on the stored measurement. -/
def sampleMeas : Measurement :=
  { mtof := 0, period := 0, flowrate := 0, temp := 0, rh := 0,
    pm1 := 0, pm25 := 0, pm10 := 0, binData := some [7] }

/-- A channel that never produces the ready pattern: every read call
yields `[0x00, 0x00]`. -/
def envNeverReady : Env :=
  { reads := fun _ => [0x00, 0x00], useBinData := false }

/-- A channel answering not-ready on the first 19 ready probes and
ready on the 20th (read call index 19). -/
def envReady20 : Env :=
  { reads := fun k => if k = 19 then [0xFF, 0xF3] else [0x00, 0x00]
    useBinData := false }

/-- A channel that always answers with the ready pattern in reversed
byte order `[0xF3, 0xFF]`. -/
def envReversed : Env :=
  { reads := fun _ => [0xF3, 0xFF], useBinData := false }

/-- A channel that is ready at once and then delivers an all-zero
172-byte raw histogram frame. -/
def envGoodFrame : Env :=
  { reads := fun k => if k = 0 then [0xFF, 0xF3] else List.replicate 172 0
    useBinData := false }

/-! ## State-primitive projection lemmas -/

@[simp] theorem doWrite_latestData (bs : List Nat) (st : St) :
    (doWrite bs st).latestData = st.latestData := rfl

@[simp] theorem doWrite_isFanOn (bs : List Nat) (st : St) :
    (doWrite bs st).isFanOn = st.isFanOn := rfl

@[simp] theorem doWrite_isLaserOn (bs : List Nat) (st : St) :
    (doWrite bs st).isLaserOn = st.isLaserOn := rfl

@[simp] theorem doWrite_events (bs : List Nat) (st : St) :
    (doWrite bs st).events = Event.write bs :: st.events := rfl

@[simp] theorem doSleep_latestData (d : Dur) (st : St) :
    (doSleep d st).latestData = st.latestData := rfl

@[simp] theorem doSleep_isFanOn (d : Dur) (st : St) :
    (doSleep d st).isFanOn = st.isFanOn := rfl

@[simp] theorem doSleep_isLaserOn (d : Dur) (st : St) :
    (doSleep d st).isLaserOn = st.isLaserOn := rfl

@[simp] theorem doSleep_events (d : Dur) (st : St) :
    (doSleep d st).events = Event.sleep d :: st.events := rfl

@[simp] theorem doRead_fst (env : Env) (n : Nat) (st : St) :
    (doRead env n st).1 = (env.reads st.readIdx).take n := rfl

@[simp] theorem doRead_snd_latestData (env : Env) (n : Nat) (st : St) :
    (doRead env n st).2.latestData = st.latestData := rfl

@[simp] theorem doRead_snd_isFanOn (env : Env) (n : Nat) (st : St) :
    (doRead env n st).2.isFanOn = st.isFanOn := rfl

@[simp] theorem doRead_snd_isLaserOn (env : Env) (n : Nat) (st : St) :
    (doRead env n st).2.isLaserOn = st.isLaserOn := rfl

@[simp] theorem doRead_snd_events (env : Env) (n : Nat) (st : St) :
    (doRead env n st).2.events
      = Event.readEv n ((env.reads st.readIdx).take n) :: st.events := rfl

@[simp] theorem countThreeSleeps_cons (e : Event) (evs : List Event) :
    countThreeSleeps (e :: evs)
      = countThreeSleeps evs + (if e = Event.sleep Dur.three then 1 else 0) := by
  simp [countThreeSleeps, List.countP_cons]

@[simp] theorem countInitWrites_cons (e : Event) (evs : List Event) :
    countInitWrites (e :: evs)
      = countInitWrites evs
          + (if e = Event.write [adUSBAdapter, 0x01] then 1 else 0) := by
  simp [countInitWrites, List.countP_cons]

/-! ## Filler stripping -/

theorem deinterleave_length : ∀ l : List Nat,
    (deinterleave l).length = l.length / 2
  | [] => by simp [deinterleave]
  | [_] => by simp [deinterleave]
  | _ :: b :: l => by
    simp [deinterleave, deinterleave_length l]
    omega

theorem enumFrom_filter_deinterleave : ∀ (l : List Nat) (k : Nat), k % 2 = 0 →
    ((List.enumFrom k l).filter (fun p => (p.1 + 1) % 2 == 0)).map Prod.snd
      = deinterleave l
  | [], _, _ => by simp [deinterleave]
  | [a], k, hk => by
    have h1 : ((k + 1) % 2 == 0) = false := by simp; omega
    simp [deinterleave, List.enumFrom, List.filter, h1]
  | a :: b :: l, k, hk => by
    have ih := enumFrom_filter_deinterleave l (k + 2) (by omega)
    have h1 : ((k + 1) % 2 == 0) = false := by simp; omega
    have h2 : ((k + 1 + 1) % 2 == 0) = true := by simp; omega
    simp [List.enumFrom, List.filter, deinterleave, h1, h2]
    exact ih

theorem stripFillers_eq_deinterleave (raw : List Nat) :
    stripFillers raw = deinterleave raw := by
  have h : raw.enum = List.enumFrom 0 raw := rfl
  rw [stripFillers, h]
  exact enumFrom_filter_deinterleave raw 0 rfl

theorem stripFillers_eq_oddPositions (raw : List Nat) :
    stripFillers raw = oddPositions raw := by
  unfold stripFillers oddPositions
  congr 1
  apply List.filter_congr
  intro p _
  simp
  omega

/-! ## Loop invariants -/

theorem fanPowerLoop_spec (env : Env) (status : Bool) (fs : Nat) :
    ∀ (fuel lc : Nat) (st : St),
      (fanPowerLoop env status fs fuel lc st).1.latestData = st.latestData ∧
      (fanPowerLoop env status fs fuel lc st).1.isLaserOn = st.isLaserOn ∧
      ((fanPowerLoop env status fs fuel lc st).2 = false →
        (fanPowerLoop env status fs fuel lc st).1.isFanOn = st.isFanOn) ∧
      ((fanPowerLoop env status fs fuel lc st).2 = true →
        (fanPowerLoop env status fs fuel lc st).1.isFanOn = status ∧
        Event.readEv 2 readyBytes ∈ (fanPowerLoop env status fs fuel lc st).1.events ∧
        Event.write [adOPC, fs] ∈ (fanPowerLoop env status fs fuel lc st).1.events)
  | 0, lc, st => by simp [fanPowerLoop]
  | fuel + 1, lc, st => by
    by_cases hr : readyCheck ((doRead env 2 (doWrite [adOPC, pCommand] st)).1)
    · have hready : ((doRead env 2 (doWrite [adOPC, pCommand] st)).1) = readyBytes := by
        simpa [readyCheck] using hr
      simp only [fanPowerLoop, hr, if_true]
      refine ⟨by simp, by simp, by simp, fun _ => ⟨by simp, ?_, ?_⟩⟩
      · rw [← hready]; simp
      · simp
    · by_cases hlc : lc + 1 > 20
      · obtain ⟨i1, i2, i3, i4⟩ := fanPowerLoop_spec env status fs fuel 0
          (doSleep Dur.three (doRead env 2 (doWrite [adOPC, pCommand] st)).2)
        simp only [fanPowerLoop, hr, hlc, Bool.false_eq_true, if_false, if_true]
        exact ⟨by rw [i1]; simp, by rw [i2]; simp, fun h => by rw [i3 h]; simp, i4⟩
      · obtain ⟨i1, i2, i3, i4⟩ := fanPowerLoop_spec env status fs fuel (lc + 1)
          (doSleep Dur.wait10 (doRead env 2 (doWrite [adOPC, pCommand] st)).2)
        simp only [fanPowerLoop, hr, hlc, Bool.false_eq_true, if_false]
        exact ⟨by rw [i1]; simp, by rw [i2]; simp, fun h => by rw [i3 h]; simp, i4⟩

theorem laserPowerLoop_spec (env : Env) (status : Bool) (ls : Nat) :
    ∀ (fuel lc : Nat) (st : St),
      (laserPowerLoop env status ls fuel lc st).1.latestData = st.latestData ∧
      (laserPowerLoop env status ls fuel lc st).1.isFanOn = st.isFanOn ∧
      ((laserPowerLoop env status ls fuel lc st).2 = false →
        (laserPowerLoop env status ls fuel lc st).1.isLaserOn = st.isLaserOn) ∧
      ((laserPowerLoop env status ls fuel lc st).2 = true →
        (laserPowerLoop env status ls fuel lc st).1.isLaserOn = status ∧
        Event.readEv 2 readyBytes ∈ (laserPowerLoop env status ls fuel lc st).1.events ∧
        Event.write [adOPC, ls] ∈ (laserPowerLoop env status ls fuel lc st).1.events)
  | 0, lc, st => by simp [laserPowerLoop]
  | fuel + 1, lc, st => by
    by_cases hr : readyCheck ((doRead env 2 (doWrite [adOPC, pCommand] st)).1)
    · have hready : ((doRead env 2 (doWrite [adOPC, pCommand] st)).1) = readyBytes := by
        simpa [readyCheck] using hr
      simp only [laserPowerLoop, hr, if_true]
      refine ⟨by simp, by simp, by simp, fun _ => ⟨by simp, ?_, ?_⟩⟩
      · rw [← hready]; simp
      · simp
    · by_cases hlc : lc + 1 > 20
      · obtain ⟨i1, i2, i3, i4⟩ := laserPowerLoop_spec env status ls fuel 0
          (doSleep Dur.three (doRead env 2 (doWrite [adOPC, pCommand] st)).2)
        simp only [laserPowerLoop, hr, hlc, Bool.false_eq_true, if_false, if_true]
        exact ⟨by rw [i1]; simp, by rw [i2]; simp, fun h => by rw [i3 h]; simp, i4⟩
      · obtain ⟨i1, i2, i3, i4⟩ := laserPowerLoop_spec env status ls fuel (lc + 1)
          (doSleep Dur.wait10 (doRead env 2 (doWrite [adOPC, pCommand] st)).2)
        simp only [laserPowerLoop, hr, hlc, Bool.false_eq_true, if_false]
        exact ⟨by rw [i1]; simp, by rw [i2]; simp, fun h => by rw [i3 h]; simp, i4⟩

theorem getData_not_ready_unbounded : ∀ (fuel lc : Nat) (st : St),
    (getDataLoop envNeverReady fuel lc st).2 = false ∧
    (getDataLoop envNeverReady fuel lc st).1.latestData = st.latestData ∧
    countInitWrites (getDataLoop envNeverReady fuel lc st).1.events
      = countInitWrites st.events ∧
    countThreeSleeps (getDataLoop envNeverReady fuel lc st).1.events
      = countThreeSleeps st.events
  | 0, lc, st => by simp [getDataLoop]
  | fuel + 1, lc, st => by
    obtain ⟨i1, i2, i3, i4⟩ := getData_not_ready_unbounded fuel (lc + 1)
      ((doRead envNeverReady 2 (doWrite [adOPC, reqHist] st)).2)
    have hnr : readyCheck ((doRead envNeverReady 2 (doWrite [adOPC, reqHist] st)).1)
        = false := by
      simp [envNeverReady, readyCheck, readyBytes]
    simp only [getDataLoop, hnr, Bool.false_eq_true, if_false]
    refine ⟨i1, ?_, ?_, ?_⟩
    · rw [i2]; simp
    · rw [i3]; simp [envNeverReady, adUSBAdapter, adOPC, reqHist]
    · rw [i4]; simp [envNeverReady]

theorem getDataLoop_full_or_none : ∀ (env : Env) (fuel lc : Nat) (st : St),
    (getDataLoop env fuel lc st).2 = true →
    (getDataLoop env fuel lc st).1.latestData = none ∨
    ∃ raw : List Nat, (stripFillers raw).length = 86 ∧
      (getDataLoop env fuel lc st).1.latestData
        = some (decodeHist env.useBinData (stripFillers raw))
  | env, 0, lc, st => by simp [getDataLoop]
  | env, fuel + 1, lc, st => by
    intro h
    by_cases hr : readyCheck ((doRead env 2 (doWrite [adOPC, reqHist] st)).1)
    · by_cases hl : (stripFillers
          (doRead env 172
            (writeAnyBytes 86 (doRead env 2 (doWrite [adOPC, reqHist] st)).2)).1).length
          = 86
      · right
        refine ⟨(doRead env 172
            (writeAnyBytes 86 (doRead env 2 (doWrite [adOPC, reqHist] st)).2)).1,
          hl, ?_⟩
        simp only [getDataLoop, hr, hl, if_true]
      · by_cases hlc : lc + 1 > 20
        · left
          simp only [getDataLoop, hr, hl, hlc, if_true, if_false]
        · have ih := getDataLoop_full_or_none env fuel (lc + 1)
            (doSleep Dur.wait10 (doRead env 172
              (writeAnyBytes 86 (doRead env 2 (doWrite [adOPC, reqHist] st)).2)).2)
          simp only [getDataLoop, hr, hl, hlc, if_true, if_false] at h ⊢
          exact ih h
    · have ih := getDataLoop_full_or_none env fuel (lc + 1)
        ((doRead env 2 (doWrite [adOPC, reqHist] st)).2)
      simp only [getDataLoop, hr, Bool.false_eq_true, if_false] at h ⊢
      exact ih h

/-! ## Rounding and numeric helpers -/

theorem roundHalfEven_intCast (z : ℤ) : roundHalfEven ((z : ℚ)) = z := by
  unfold roundHalfEven
  simp [Int.floor_intCast]

theorem round3_intCast (z : ℤ) : round3 ((z : ℚ)) = z := by
  unfold round3
  have h : (z : ℚ) * 1000 = ((z * 1000 : ℤ) : ℚ) := by push_cast; ring
  rw [h, roundHalfEven_intCast]
  push_cast
  field_simp

theorem combine_bytes_eq (LSB MSB : Nat) (h : LSB ≤ 255) :
    combine_bytes LSB MSB = 256 * MSB + LSB := by
  unfold combine_bytes
  rw [Nat.shiftLeft_eq, Nat.mul_comm,
    ← Nat.mul_add_lt_is_or (show LSB < 2 ^ 8 by omega) MSB]

/-! ## Claim theorems -/

/-- C1 (code bug): against a channel that never returns the ready
pattern, `getData` never terminates at any fuel: the not-ready path is
not subject to the 20-attempt ceiling (those branches are nested under
the ready branch and guard only the frame-length check), so no cooldown
sleep happens, `initConnection` is never invoked, and `latestData` is
never set to "no measurement" — contrary to the claimed
bounded-retry-then-hard-failure policy. -/
theorem getData_never_ready_no_ceiling (fuel : Nat) (st : St) :
    (getData envNeverReady fuel st).2 = false ∧
    (getData envNeverReady fuel st).1.latestData = st.latestData ∧
    countInitWrites (getData envNeverReady fuel st).1.events
      = countInitWrites st.events ∧
    countThreeSleeps (getData envNeverReady fuel st).1.events
      = countThreeSleeps st.events :=
  getData_not_ready_unbounded fuel 0 st

/-- C2 counterexample: on the concrete 172-byte wire frame whose byte
at position `i` is `i`, the retained payload is not the bytes at even
0-indexed positions, refuting the claim as stated. -/
theorem strip_even_positions_cex :
    ¬ (stripFillers (List.range 172) = evenPositions (List.range 172)) := by
  decide

/-- C2 (amended): for every 172-byte raw wire frame, the retained
86-byte payload consists exactly of the bytes at odd 0-indexed wire
positions (1, 3, ..., 171) in their original order; the bytes at even
0-indexed positions are discarded. -/
theorem strip_keeps_odd_positions (raw : List Nat) (h : raw.length = 172) :
    stripFillers raw = oddPositions raw ∧ (stripFillers raw).length = 86 := by
  refine ⟨stripFillers_eq_oddPositions raw, ?_⟩
  rw [stripFillers_eq_deinterleave, deinterleave_length, h]

/-- C2 witness: the amended statement evaluated on the frame
`[0, 1, ..., 171]`. -/
theorem strip_keeps_odd_positions_witness :
    (List.range 172).length = 172 ∧
    (stripFillers (List.range 172) = oddPositions (List.range 172) ∧
     (stripFillers (List.range 172)).length = 86) :=
  ⟨by simp, strip_keeps_odd_positions (List.range 172) (by simp)⟩

/-- C3 counterexample: the reversed byte order `[0xF3, 0xFF]` is not
accepted by the ready check, refuting the claimed acceptance of either
byte order at that input. -/
theorem ready_reversed_rejected_cex :
    ¬ (readyCheck [0xF3, 0xFF] = true ↔
        (([0xF3, 0xFF] : List Nat) = [0xFF, 0xF3] ∨
         ([0xF3, 0xFF] : List Nat) = [0xF3, 0xFF])) := by
  decide

/-- C3 (amended): a 2-byte response is accepted as the ready
acknowledgement if and only if it equals `[0xFF, 0xF3]` exactly; any
other value — in particular the reversed order `[0xF3, 0xFF]` — is
treated as not-ready, so a channel that always answers in reversed
order never satisfies `fanPower`, `laserPower` or `getData`. -/
theorem ready_check_single_order :
    (∀ r : List Nat, readyCheck r = true ↔ r = [0xFF, 0xF3]) ∧
    (fanPower envReversed true 25 initSt).2 = false ∧
    (laserPower envReversed false 25 initSt).2 = false ∧
    (getData envReversed 25 initSt).2 = false := by
  refine ⟨fun r => ?_, by decide, by decide, by decide⟩
  simp [readyCheck, readyBytes]

/-- C4: `convert_T r = -45 + 175 * r / 65535` and
`convert_RH r = 100 * r / 65535`; raw temperature 0 decodes to -45 and
65535 to 130, raw humidity 0 decodes to 0 and 65535 to 100, both
exactly and after the 3-decimal rounding applied by `getData`. -/
theorem conversion_formulas (r : Nat) (h : r ≤ 65535) :
    convert_T r = -45 + 175 * (r : ℚ) / 65535 ∧
    convert_RH r = 100 * (r : ℚ) / 65535 ∧
    convert_T 0 = -45 ∧ convert_T 65535 = 130 ∧
    convert_RH 0 = 0 ∧ convert_RH 65535 = 100 ∧
    round3 (convert_T 0) = -45 ∧ round3 (convert_T 65535) = 130 ∧
    round3 (convert_RH 0) = 0 ∧ round3 (convert_RH 65535) = 100 := by
  have t0 : convert_T 0 = -45 := by norm_num [convert_T]
  have t1 : convert_T 65535 = 130 := by norm_num [convert_T]
  have r0 : convert_RH 0 = 0 := by norm_num [convert_RH]
  have r1 : convert_RH 65535 = 100 := by norm_num [convert_RH]
  refine ⟨?_, ?_, t0, t1, r0, r1, ?_, ?_, ?_, ?_⟩
  · unfold convert_T; norm_num; ring
  · unfold convert_RH; norm_num; ring
  · rw [t0, show (-45 : ℚ) = ((-45 : ℤ) : ℚ) by norm_num, round3_intCast]
  · rw [t1, show (130 : ℚ) = ((130 : ℤ) : ℚ) by norm_num, round3_intCast]
  · rw [r0, show (0 : ℚ) = ((0 : ℤ) : ℚ) by norm_num, round3_intCast]
  · rw [r1, show (100 : ℚ) = ((100 : ℤ) : ℚ) by norm_num, round3_intCast]

/-- C4 witness: the statement evaluated at raw value 3. -/
theorem conversion_formulas_witness :
    (3 : Nat) ≤ 65535 ∧
    (convert_T 3 = -45 + 175 * ((3 : Nat) : ℚ) / 65535 ∧
     convert_RH 3 = 100 * ((3 : Nat) : ℚ) / 65535 ∧
     convert_T 0 = -45 ∧ convert_T 65535 = 130 ∧
     convert_RH 0 = 0 ∧ convert_RH 65535 = 100 ∧
     round3 (convert_T 0) = -45 ∧ round3 (convert_T 65535) = 130 ∧
     round3 (convert_RH 0) = 0 ∧ round3 (convert_RH 65535) = 100) :=
  ⟨by norm_num, conversion_formulas 3 (by norm_num)⟩

/-- C5: a fan (or laser) power call against a channel that is not ready
on the first 19 probes and ready on the 20th succeeds with no 3-unit
cooldown; against a channel that is never ready, the 21st probe
triggers exactly one cooldown and resets the counter, after which
polling continues (a second cooldown only after 21 further probes),
with no re-initialization and no failure ever reported. -/
theorem retry_accounting :
    (fanPower envReady20 true 25 initSt).2 = true ∧
    countThreeSleeps (fanPower envReady20 true 25 initSt).1.events = 0 ∧
    (laserPower envReady20 true 25 initSt).2 = true ∧
    countThreeSleeps (laserPower envReady20 true 25 initSt).1.events = 0 ∧
    countThreeSleeps (fanPower envNeverReady true 25 initSt).1.events = 1 ∧
    countThreeSleeps (fanPower envNeverReady true 42 initSt).1.events = 2 ∧
    countInitWrites (fanPower envNeverReady true 42 initSt).1.events = 0 ∧
    (fanPower envNeverReady true 42 initSt).2 = false :=
  ⟨by decide, by decide, by decide, by decide, by decide, by decide, by decide,
   by decide⟩

/-- C6: whenever a `getData` call completes, `latestData` is either
`none` (the hard-failure path) or the full decode of a stripped payload
of exactly 86 bytes; a payload of any other length never yields a
measurement. -/
theorem getData_completed_full_or_none (env : Env) (fuel : Nat) (st : St)
    (h : (getData env fuel st).2 = true) :
    (getData env fuel st).1.latestData = none ∨
    ∃ raw : List Nat, (stripFillers raw).length = 86 ∧
      (getData env fuel st).1.latestData
        = some (decodeHist env.useBinData (stripFillers raw)) :=
  getDataLoop_full_or_none env fuel 0 st h

/-- C6 witness: the statement evaluated on a channel that is ready at
once and delivers a well-formed all-zero frame. -/
theorem getData_completed_full_or_none_witness :
    (getData envGoodFrame 2 initSt).2 = true ∧
    ((getData envGoodFrame 2 initSt).1.latestData = none ∨
     ∃ raw : List Nat, (stripFillers raw).length = 86 ∧
       (getData envGoodFrame 2 initSt).1.latestData
         = some (decodeHist envGoodFrame.useBinData (stripFillers raw))) :=
  ⟨by decide, getData_completed_full_or_none envGoodFrame 2 initSt (by decide)⟩

/-- C7: during `fanPower` and `laserPower` the commanded flag changes
only on the success path: if the call never observes the ready pattern
the flag keeps its prior value, and on success it equals the requested
boolean and the event log contains both the ready acknowledgement read
and the write of the corresponding on/off command. -/
theorem power_flag_discipline (env : Env) (status : Bool) (fuel : Nat) (st : St) :
    ((fanPower env status fuel st).2 = false →
      (fanPower env status fuel st).1.isFanOn = st.isFanOn) ∧
    ((fanPower env status fuel st).2 = true →
      (fanPower env status fuel st).1.isFanOn = status ∧
      Event.readEv 2 readyBytes ∈ (fanPower env status fuel st).1.events ∧
      Event.write [adOPC, if status then fanOn else fanOff]
        ∈ (fanPower env status fuel st).1.events) ∧
    ((laserPower env status fuel st).2 = false →
      (laserPower env status fuel st).1.isLaserOn = st.isLaserOn) ∧
    ((laserPower env status fuel st).2 = true →
      (laserPower env status fuel st).1.isLaserOn = status ∧
      Event.readEv 2 readyBytes ∈ (laserPower env status fuel st).1.events ∧
      Event.write [adOPC, if status then laserOn else laserOff]
        ∈ (laserPower env status fuel st).1.events) :=
  ⟨(fanPowerLoop_spec env status (if status then fanOn else fanOff) fuel 0 st).2.2.1,
   (fanPowerLoop_spec env status (if status then fanOn else fanOff) fuel 0 st).2.2.2,
   (laserPowerLoop_spec env status (if status then laserOn else laserOff) fuel 0 st).2.2.1,
   (laserPowerLoop_spec env status (if status then laserOn else laserOff) fuel 0 st).2.2.2⟩

/-- C7 witness: flag retention on a never-ready channel and flag
setting plus logged handshake on a channel that becomes ready. -/
theorem power_flag_discipline_witness :
    (fanPower envNeverReady true 5 initSt).1.isFanOn = initSt.isFanOn ∧
    (fanPower envReady20 true 25 initSt).1.isFanOn = true ∧
    Event.readEv 2 readyBytes ∈ (fanPower envReady20 true 25 initSt).1.events :=
  ⟨(power_flag_discipline envNeverReady true 5 initSt).1 (by decide),
   ((power_flag_discipline envReady20 true 25 initSt).2.1 (by decide)).1,
   ((power_flag_discipline envReady20 true 25 initSt).2.1 (by decide)).2.1⟩

/-- C8 counterexample: formatting a stored measurement that carries bin
data does not leave it unchanged — `formatData` removes the bin
mapping from `latestData`. -/
theorem formatData_mutates_cex :
    ¬ ((formatData true (some sampleMeas)).map Prod.snd
        = some (some sampleMeas)) := by
  simp [formatData, sampleMeas]

/-- C8 (amended): with bin reporting disabled, `formatData` leaves the
stored measurement unchanged; with bin reporting enabled it removes
exactly the bin mapping, leaving every other field unchanged; and
`fanPower`/`laserPower` never modify `latestData`. -/
theorem measurement_mutation (env : Env) (status : Bool) (fuel : Nat) (st : St)
    (m : Measurement) (bd : List Nat) (hbd : m.binData = some bd) :
    (formatData false (some m)).map Prod.snd = some (some m) ∧
    (formatData true (some m)).map Prod.snd
      = some (some { m with binData := none }) ∧
    (fanPower env status fuel st).1.latestData = st.latestData ∧
    (laserPower env status fuel st).1.latestData = st.latestData :=
  ⟨by simp [formatData],
   by simp [formatData, hbd],
   (fanPowerLoop_spec env status (if status then fanOn else fanOff) fuel 0 st).1,
   (laserPowerLoop_spec env status (if status then laserOn else laserOff) fuel 0 st).1⟩

/-- C8 witness: the amended statement evaluated on `sampleMeas`. -/
theorem measurement_mutation_witness :
    sampleMeas.binData = some [7] ∧
    ((formatData false (some sampleMeas)).map Prod.snd = some (some sampleMeas) ∧
     (formatData true (some sampleMeas)).map Prod.snd
       = some (some { sampleMeas with binData := none }) ∧
     (fanPower envNeverReady true 5 initSt).1.latestData = initSt.latestData ∧
     (laserPower envNeverReady true 5 initSt).1.latestData = initSt.latestData) :=
  ⟨rfl, measurement_mutation envNeverReady true 5 initSt sampleMeas [7] rfl⟩

/-- C9: `combine_bytes LSB MSB = 256 * MSB + LSB`, a value in
`[0, 65535]`, for byte-sized inputs; consequently the decoded sample
period and flow rate are the little-endian 16-bit values at payload
offsets 52-53 and 54-55 divided by 100. -/
theorem combine_bytes_and_fixed_point (LSB MSB : Nat) (h1 : LSB ≤ 255)
    (h2 : MSB ≤ 255) (ub : Bool) (hist : List Nat)
    (h52 : hist.getD 52 0 ≤ 255) (h54 : hist.getD 54 0 ≤ 255) :
    combine_bytes LSB MSB = 256 * MSB + LSB ∧
    combine_bytes LSB MSB ≤ 65535 ∧
    (decodeHist ub hist).period
      = (256 * (hist.getD 53 0 : ℚ) + (hist.getD 52 0 : ℚ)) / 100 ∧
    (decodeHist ub hist).flowrate
      = (256 * (hist.getD 55 0 : ℚ) + (hist.getD 54 0 : ℚ)) / 100 := by
  refine ⟨combine_bytes_eq LSB MSB h1, ?_, ?_, ?_⟩
  · rw [combine_bytes_eq LSB MSB h1]; omega
  · simp only [decodeHist]
    rw [combine_bytes_eq _ _ h52]
    push_cast
    ring
  · simp only [decodeHist]
    rw [combine_bytes_eq _ _ h54]
    push_cast
    ring

/-- C9 witness: the statement evaluated at bytes 0x34, 0x12 and an
all-ones payload. -/
theorem combine_bytes_and_fixed_point_witness :
    (0x34 : Nat) ≤ 255 ∧ (0x12 : Nat) ≤ 255 ∧
    (List.replicate 86 1).getD 52 0 ≤ 255 ∧
    (List.replicate 86 1).getD 54 0 ≤ 255 ∧
    (combine_bytes 0x34 0x12 = 256 * 0x12 + 0x34 ∧
     combine_bytes 0x34 0x12 ≤ 65535 ∧
     (decodeHist false (List.replicate 86 1)).period
       = (256 * ((List.replicate 86 1).getD 53 0 : ℚ)
           + ((List.replicate 86 1).getD 52 0 : ℚ)) / 100 ∧
     (decodeHist false (List.replicate 86 1)).flowrate
       = (256 * ((List.replicate 86 1).getD 55 0 : ℚ)
           + ((List.replicate 86 1).getD 54 0 : ℚ)) / 100) :=
  ⟨by norm_num, by norm_num, by decide, by decide,
   combine_bytes_and_fixed_point 0x34 0x12 (by norm_num) (by norm_num) false
     (List.replicate 86 1) (by decide) (by decide)⟩

/-- C10: immediately after construction, before any command has been
written or acknowledged, both `isFanOn` and `isLaserOn` default to
`true` and no channel traffic has occurred. -/
theorem init_flags_default_true :
    initSt.isFanOn = true ∧ initSt.isLaserOn = true ∧
    initSt.events = [] ∧ initSt.latestData = none :=
  ⟨rfl, rfl, rfl, rfl⟩

end OPCN3
